import Mathlib

/-!
Verification of the example_06 domain layer (clean-architecture example):
`Product`, `Order`, `OrderItem` entities from `domain/entities.py` and the
orchestration in `application/services.py`.

Modelling conventions:
* Python `float` prices are modelled as `ℚ`; Python `int` as `ℤ`.
* `datetime` fields (`created_at`, `updated_at`) carry no business logic
  touched by any property below and are omitted from the record types.
* A Python method that may `raise` is embedded as a function returning
  `Except String α`.  Wherever every `raise` in the source precedes the
  first field mutation (true of all `Product` and `Order` entity methods),
  `Except.error` faithfully models "exception raised, object unchanged".
  `OrderService.cancel_order` mutates products *before* it can raise, so it
  is embedded with explicit state passing instead, returning the updated
  product table together with the outcome.
* Repositories are infrastructure excluded by spec §6; they are modelled as
  association lists keyed by integer id.
-/

/-- Embedding of the `Product` entity (`entities.py` lines 10–106).  `id` is `Optional[int]`
in the source; `_price`/`_quantity` are the private backing fields of the
read-only `price`/`quantity` properties. -/
structure Product where
  id : Option ℤ
  name : String
  price : ℚ
  quantity : ℤ
  deriving DecidableEq, Repr

/-- Embedding of `Product._validate` (lines 39–48): name at least 3 characters
(`not self.name or len(self.name) < 3` — the emptiness test is subsumed by
the length test), price strictly positive, quantity non-negative. -/
def Product.validate (p : Product) : Except String Unit :=
  if p.name.length < 3 then .error "ValueError: name must be at least 3 characters"
  else if p.price ≤ 0 then .error "ValueError: price must be positive"
  else if p.quantity < 0 then .error "ValueError: quantity cannot be negative"
  else .ok ()

/-- Embedding of `Product.__init__` (lines 20–37): store the fields, then `_validate`. -/
def Product.make (name : String) (price : ℚ) (quantity : ℤ)
    (id : Option ℤ := none) : Except String Product :=
  let p : Product := { id := id, name := name, price := price, quantity := quantity }
  match p.validate with
  | .error e => .error e
  | .ok _ => .ok p

/-- Embedding of `Product.update_price` (lines 55–69): reject a non-positive price, then
reject a relative change above 50% (`abs(new_price - self._price) / self._price
> 0.5`), otherwise replace the price.  Both raises precede the assignment. -/
def Product.update_price (p : Product) (new_price : ℚ) : Except String Product :=
  if new_price ≤ 0 then .error "ValueError: price must be positive"
  else if |new_price - p.price| / p.price > 1/2 then
    .error "ValueError: price cannot change by more than 50 percent at once"
  else .ok { p with price := new_price }

/-- Embedding of `Product.add_stock` (lines 76–82). -/
def Product.add_stock (p : Product) (amount : ℤ) : Except String Product :=
  if amount ≤ 0 then .error "ValueError: amount must be positive"
  else .ok { p with quantity := p.quantity + amount }

/-- Embedding of `Product.remove_stock` (lines 84–93). -/
def Product.remove_stock (p : Product) (amount : ℤ) : Except String Product :=
  if amount ≤ 0 then .error "ValueError: amount must be positive"
  else if p.quantity < amount then .error "ValueError: insufficient stock"
  else .ok { p with quantity := p.quantity - amount }

/-- Embedding of the `Product.is_in_stock` property (lines 95–98). -/
def Product.is_in_stock (p : Product) : Bool := p.quantity > 0

/-- Embedding of the `Product.total_value` property (lines 100–103). -/
def Product.total_value (p : Product) : ℚ := p.price * p.quantity

/-- Embedding of the `OrderItem` value object (`entities.py` lines 200–255).  All four fields
back read-only properties: the class defines no setters, so any attribute
assignment to `quantity` etc. raises `AttributeError` in Python.
`product_id` receives `product.id`, which is `Optional[int]`. -/
structure OrderItem where
  product_id : Option ℤ
  product_name : String
  price : ℚ
  quantity : ℤ
  deriving DecidableEq, Repr

/-- Embedding of the `OrderItem.subtotal` property (lines 238–241). -/
def OrderItem.subtotal (it : OrderItem) : ℚ := it.price * it.quantity

/-- Embedding of the `Order` entity (`entities.py` lines 109–197).  `status` is a plain
string (`"pending"`, `"confirmed"`, `"cancelled"`, `"delivered"`). -/
structure Order where
  id : Option ℤ
  user_id : ℤ
  status : String
  items : List OrderItem
  deriving DecidableEq, Repr

/-- Embedding of `Order.add_item` (lines 129–162), embedded together with the `product`
argument threaded through so that the (absent) mutation of the product is
visible in the result.  Checks in source order: `quantity <= 0`, product not
in stock, requested quantity above available stock.  The merge loop
(`for item in self.items: if item.product_id == product.id:
item.quantity += quantity`) assigns through the setter-less property
`OrderItem.quantity`, which raises `AttributeError` at the first matching
item, before any state is mutated.  Otherwise a new `OrderItem` is appended
snapshotting the product's current name and price. -/
def Order.add_item (o : Order) (product : Product) (quantity : ℤ) :
    Except String (Order × Product) :=
  if quantity ≤ 0 then .error "ValueError: quantity must be positive"
  else if ¬ product.is_in_stock then .error "ValueError: product out of stock"
  else if product.quantity < quantity then .error "ValueError: insufficient stock for product"
  else if o.items.any (fun it => it.product_id = product.id) then
    .error "AttributeError: OrderItem quantity property has no setter"
  else
    .ok ({ o with items := o.items ++
            [{ product_id := product.id, product_name := product.name,
               price := product.price, quantity := quantity }] },
         product)

/-- Embedding of `Order.remove_item` (lines 164–166): keep every item whose `product_id`
differs from the given id (`None != pid` is `True` in Python, so items with
a `None` product id are kept). -/
def Order.remove_item (o : Order) (pid : ℤ) : Order :=
  { o with items := o.items.filter (fun it => ¬ it.product_id = some pid) }

/-- Embedding of the `Order.total_amount` property (lines 168–171). -/
def Order.total_amount (o : Order) : ℚ := (o.items.map OrderItem.subtotal).sum

/-- Embedding of the `Order.items_count` property (lines 173–176). -/
def Order.items_count (o : Order) : ℕ := o.items.length

/-- Embedding of `Order.confirm` (lines 178–186). -/
def Order.confirm (o : Order) : Except String Order :=
  if o.items.isEmpty then .error "ValueError: order is empty"
  else if ¬ o.status = "pending" then .error "ValueError: only a pending order can be confirmed"
  else .ok { o with status := "confirmed" }

/-- Embedding of `Order.cancel` (lines 188–193). -/
def Order.cancel (o : Order) : Except String Order :=
  if o.status = "delivered" ∨ o.status = "cancelled" then
    .error "ValueError: cannot cancel order in a terminal status"
  else .ok { o with status := "cancelled" }

/-! ### Service layer (`application/services.py`)

Repositories (spec §6: excluded infrastructure) are modelled as association
lists keyed by integer id; `get` is lookup, `update` replaces the entry in
place. -/

/-- Repository `get` on an association list. -/
def repoGet {α : Type} : List (ℤ × α) → ℤ → Option α
  | [], _ => none
  | (k, v) :: rest, i => if k = i then some v else repoGet rest i

/-- Repository `update` on an association list: replace the value stored
under the given id, leaving other entries alone. -/
def repoUpdate {α : Type} : List (ℤ × α) → ℤ → α → List (ℤ × α)
  | [], _, _ => []
  | (k, v) :: rest, i, a => if k = i then (k, a) :: rest else (k, v) :: repoUpdate rest i a

/-- The stock-restoration loop of `OrderService.cancel_order`
(`services.py` lines 209–214): for each item, load the product by the
item's product id (an item with a `None` product id matches no row and is
skipped, as is a missing product), call `Product.add_stock` with the item's
quantity, and persist.  A raise inside `add_stock` aborts the loop but
keeps all updates already applied, so the function returns the product
table as mutated so far together with the possible error. -/
def restore_stock : List (ℤ × Product) → List OrderItem →
    List (ℤ × Product) × Option String
  | ps, [] => (ps, none)
  | ps, item :: rest =>
    match item.product_id with
    | none => restore_stock ps rest
    | some pid =>
      match repoGet ps pid with
      | none => restore_stock ps rest
      | some p =>
        match p.add_stock item.quantity with
        | .error e => (ps, some e)
        | .ok p2 => restore_stock (repoUpdate ps pid p2) rest

/-- Embedding of `OrderService.cancel_order` (`services.py` lines 197–220): load the
order (`None` → `ok none`), restore stock for every item and persist each
product, then call `Order.cancel` and persist the order.  The entity-level
raise in `Order.cancel` happens *after* the stock loop, so on a
business-rule rejection the already-applied product updates remain; the
function returns the final product table, the final order table, and the
outcome. -/
def OrderService.cancel_order (products : List (ℤ × Product))
    (orders : List (ℤ × Order)) (order_id : ℤ) :
    List (ℤ × Product) × List (ℤ × Order) × Except String (Option Order) :=
  match repoGet orders order_id with
  | none => (products, orders, .ok none)
  | some o =>
    match restore_stock products o.items with
    | (ps, some e) => (ps, orders, .error e)
    | (ps, none) =>
      match o.cancel with
      | .error e => (ps, orders, .error e)
      | .ok o2 => (ps, repoUpdate orders order_id o2, .ok (some o2))

/-- Embedding of `ProductUpdateDTO` (`application/dto.py` lines 22–26): all three fields
optional. -/
structure ProductUpdateDTO where
  name : Option String
  price : Option ℚ
  quantity : Option ℤ
  deriving DecidableEq, Repr

/-- The pydantic `Field` constraints of `ProductUpdateDTO` (`dto.py` lines
24–26), enforced when the request body is parsed: `name` has
`min_length=3, max_length=200`, `price` has `gt=0`, `quantity` has `ge=0`. -/
def ProductUpdateDTO.valid (d : ProductUpdateDTO) : Prop :=
  (∀ s ∈ d.name, 3 ≤ s.length ∧ s.length ≤ 200) ∧
  (∀ x ∈ d.price, 0 < x) ∧
  (∀ n ∈ d.quantity, 0 ≤ n)

instance (d : ProductUpdateDTO) : Decidable d.valid := by
  unfold ProductUpdateDTO.valid; infer_instance

/-- The quantity-reconciliation step of `ProductService.update_product`
(`services.py` lines 77–82): `diff = dto.quantity - product.quantity`;
positive difference → `add_stock(diff)`, negative → `remove_stock(abs(diff))`,
zero → nothing. -/
def ProductService.update_quantity_step (p : Product) (dto : ProductUpdateDTO) :
    Product × Option String :=
  match dto.quantity with
  | none => (p, none)
  | some q =>
    let diff := q - p.quantity
    if diff > 0 then
      match p.add_stock diff with
      | .error e => (p, some e)
      | .ok p2 => (p2, none)
    else if diff < 0 then
      match p.remove_stock (-diff) with
      | .error e => (p, some e)
      | .ok p2 => (p2, none)
    else (p, none)

/-- The entity-mutation part of `ProductService.update_product`
(`services.py` lines 70–82), applied to an already-loaded product.  In
source order: a new name is assigned directly to the plain `name` attribute
(no entity validation); a new price goes through `Product.update_price`; a
new target quantity is reconciled through `add_stock`/`remove_stock` on the
signed difference.  A raise in a later step keeps the mutations of the
earlier steps (the name assignment cannot raise), so the function returns
the product as mutated so far together with the possible error. -/
def ProductService.update_product (p : Product) (dto : ProductUpdateDTO) :
    Product × Option String :=
  let p1 := match dto.name with
    | none => p
    | some n => { p with name := n }
  match dto.price with
  | some pr =>
    match p1.update_price pr with
    | .error e => (p1, some e)
    | .ok p2 => ProductService.update_quantity_step p2 dto
  | none => ProductService.update_quantity_step p1 dto

/-! ### Operation sequences over an order (for the derived-aggregate claim) -/

/-- A client-visible mutation of an order's item list. -/
inductive OrderOp where
  | add (p : Product) (q : ℤ)
  | remove (pid : ℤ)

/-- Apply one operation; a raising `add_item` leaves the order unchanged
(every raise in `Order.add_item` precedes its single mutation). -/
def Order.apply_op (o : Order) : OrderOp → Order
  | .add p q =>
    match o.add_item p q with
    | .ok (o2, _) => o2
    | .error _ => o
  | .remove pid => o.remove_item pid

/-- Apply a sequence of `add_item` / `remove_item` operations. -/
def Order.apply_ops (o : Order) (ops : List OrderOp) : Order :=
  ops.foldl Order.apply_op o

/-! ### Helper lemmas -/

/-- Lemma: `update_price` never touches the name. -/
theorem Product.update_price_name {p p2 : Product} {x : ℚ}
    (h : p.update_price x = .ok p2) : p2.name = p.name := by
  unfold Product.update_price at h
  split_ifs at h
  all_goals first
  | exact Except.noConfusion h
  | (injection h with h2; rw [← h2])

/-- Lemma: `add_stock` never touches the name. -/
theorem Product.add_stock_name {p p2 : Product} {a : ℤ}
    (h : p.add_stock a = .ok p2) : p2.name = p.name := by
  unfold Product.add_stock at h
  split_ifs at h
  all_goals first
  | exact Except.noConfusion h
  | (injection h with h2; rw [← h2])

/-- Lemma: `remove_stock` never touches the name. -/
theorem Product.remove_stock_name {p p2 : Product} {a : ℤ}
    (h : p.remove_stock a = .ok p2) : p2.name = p.name := by
  unfold Product.remove_stock at h
  split_ifs at h
  all_goals first
  | exact Except.noConfusion h
  | (injection h with h2; rw [← h2])

/-- The quantity-reconciliation step never touches the name, raise or not. -/
theorem update_quantity_step_name (p : Product) (dto : ProductUpdateDTO) :
    (ProductService.update_quantity_step p dto).1.name = p.name := by
  unfold ProductService.update_quantity_step
  cases hq : dto.quantity with
  | none => rfl
  | some q =>
    simp only
    split_ifs with h1 h2
    · rcases h : p.add_stock (q - p.quantity) with e | p2
      · simp
      · simp [Product.add_stock_name h]
    · rcases h : p.remove_stock (-(q - p.quantity)) with e | p2
      · simp
      · simp [Product.remove_stock_name h]
    · rfl

/-! ### Claims -/

/-- C3: for a product with positive price, `update_price np` succeeds exactly
when `np > 0` and `|np − price| / price ≤ 1/2`, and then the stored price is
`np` (other fields untouched); otherwise it raises a `ValueError`, and since
both raises in the source precede the assignment the product is unchanged. -/
theorem update_price_spec (p : Product) (np : ℚ) (hp : 0 < p.price) :
    ((0 < np ∧ |np - p.price| / p.price ≤ 1/2) →
      p.update_price np = .ok { p with price := np }) ∧
    (¬ (0 < np ∧ |np - p.price| / p.price ≤ 1/2) →
      ∃ e, p.update_price np = .error e) := by
  constructor
  · rintro ⟨h1, h2⟩
    unfold Product.update_price
    rw [if_neg (by linarith), if_neg (by push_neg; exact h2)]
  · intro h
    unfold Product.update_price
    split_ifs with h1 h2
    · exact ⟨_, rfl⟩
    · exact ⟨_, rfl⟩
    · exact absurd ⟨by linarith, by linarith⟩ h

/-- Witness for `update_price_spec` at a concrete product: a 20% raise
succeeds, a 100% raise is rejected. -/
theorem update_price_spec_witness :
    ({ id := none, name := "Widget", price := 10, quantity := 5 } : Product).update_price 12 =
      .ok { id := none, name := "Widget", price := 12, quantity := 5 } ∧
    ∃ e, ({ id := none, name := "Widget", price := 10, quantity := 5 } : Product).update_price 20 =
      .error e := by
  constructor
  · exact (update_price_spec _ 12 (by norm_num)).1 (by constructor <;> norm_num)
  · exact (update_price_spec _ 20 (by norm_num)).2 (by norm_num)

/-- C4: for a product with non-negative quantity `q`, `remove_stock a`
succeeds exactly when `0 < a ≤ q`, leaving quantity `q − a`; otherwise it
raises, and since both raises precede the assignment the product is
unchanged. -/
theorem remove_stock_spec (p : Product) (a : ℤ) (hq : 0 ≤ p.quantity) :
    ((0 < a ∧ a ≤ p.quantity) →
      p.remove_stock a = .ok { p with quantity := p.quantity - a }) ∧
    (¬ (0 < a ∧ a ≤ p.quantity) → ∃ e, p.remove_stock a = .error e) := by
  constructor
  · rintro ⟨h1, h2⟩
    unfold Product.remove_stock
    rw [if_neg (by omega), if_neg (by omega)]
  · intro h
    unfold Product.remove_stock
    split_ifs with h1 h2
    · exact ⟨_, rfl⟩
    · exact ⟨_, rfl⟩
    · exact absurd ⟨by omega, by omega⟩ h

/-- Witness for `remove_stock_spec` at the spec §8 example: quantity 5,
removing 6 raises, removing 5 empties the stock. -/
theorem remove_stock_spec_witness :
    (∃ e, ({ id := none, name := "Widget", price := 10, quantity := 5 } : Product).remove_stock 6 =
      .error e) ∧
    ({ id := none, name := "Widget", price := 10, quantity := 5 } : Product).remove_stock 5 =
      .ok { id := none, name := "Widget", price := 10, quantity := 0 } := by
  constructor
  · exact (remove_stock_spec _ 6 (by norm_num)).2 (by norm_num)
  · exact (remove_stock_spec _ 5 (by norm_num)).1 (by norm_num)

/-- C5: the order status machine.  `confirm` succeeds exactly on a
non-empty pending order and then sets status `confirmed`; `cancel` succeeds
exactly outside the terminal statuses `delivered`/`cancelled` and then sets
status `cancelled`; re-confirming a confirmed order and re-cancelling a
cancelled order both raise. -/
theorem order_status_machine (o : Order) :
    ((∃ o2, o.confirm = .ok o2) ↔ (¬ o.items = [] ∧ o.status = "pending")) ∧
    (∀ o2, o.confirm = .ok o2 → o2 = { o with status := "confirmed" }) ∧
    ((∃ o2, o.cancel = .ok o2) ↔ (¬ o.status = "delivered" ∧ ¬ o.status = "cancelled")) ∧
    (∀ o2, o.cancel = .ok o2 → o2 = { o with status := "cancelled" }) ∧
    (o.status = "confirmed" → ∃ e, o.confirm = .error e) ∧
    (o.status = "cancelled" → ∃ e, o.cancel = .error e) := by
  refine ⟨?_, ?_, ?_, ?_, ?_, ?_⟩
  · unfold Order.confirm
    split_ifs with h1 h2 <;> simp_all [List.isEmpty_iff]
  · intro o2 h
    unfold Order.confirm at h
    split_ifs at h
    all_goals first
    | exact Except.noConfusion h
    | (injection h with h2; rw [h2])
  · unfold Order.cancel
    split_ifs with h1
    · constructor
      · rintro ⟨o2, ho⟩
        exact ho.elim
      · rintro ⟨hd, hc⟩
        rcases h1 with h | h
        · exact absurd h hd
        · exact absurd h hc
    · push_neg at h1
      constructor
      · rintro ⟨o2, ho⟩
        exact h1
      · rintro h2
        exact ⟨_, rfl⟩
  · intro o2 h
    unfold Order.cancel at h
    split_ifs at h
    all_goals first
    | exact Except.noConfusion h
    | (injection h with h2; rw [h2])
  · intro hs
    unfold Order.confirm
    split_ifs with h1 h2
    · exact ⟨_, rfl⟩
    · rw [hs] at h2
      exact absurd h2 (by decide)
    · exact ⟨_, rfl⟩
  · intro hs
    unfold Order.cancel
    rw [if_pos (Or.inr hs)]
    exact ⟨_, rfl⟩

/-- Witness for `order_status_machine`: a confirmed one-item order can be
cancelled but not re-confirmed, and a cancelled order cannot be cancelled
again. -/
theorem order_status_machine_witness :
    (∃ e, ({ id := some 1, user_id := 7, status := "confirmed",
             items := [⟨some 1, "Widget", 10, 1⟩] } : Order).confirm = .error e) ∧
    (∃ o2, ({ id := some 1, user_id := 7, status := "confirmed",
              items := [⟨some 1, "Widget", 10, 1⟩] } : Order).cancel = .ok o2) ∧
    (∃ e, ({ id := some 1, user_id := 7, status := "cancelled",
             items := [⟨some 1, "Widget", 10, 1⟩] } : Order).cancel = .error e) := by
  refine ⟨(order_status_machine _).2.2.2.2.1 rfl, ?_, (order_status_machine _).2.2.2.2.2 rfl⟩
  exact (order_status_machine _).2.2.1.mpr (by constructor <;> decide)

/-- C7: every successfully constructed product has positive price and
non-negative quantity, and each mutator (`update_price`, `add_stock`,
`remove_stock`) either raises — leaving the product unchanged, as every
raise precedes the assignment — or re-establishes both bounds.  Direct
assignment to `price`/`quantity` does not exist: they are read-only
properties backed by private fields. -/
theorem product_bounds_invariant (p : Product)
    (h : 0 < p.price ∧ 0 ≤ p.quantity) :
    (∀ n pr q i p2, Product.make n pr q i = .ok p2 →
      0 < p2.price ∧ 0 ≤ p2.quantity) ∧
    (∀ x p2, p.update_price x = .ok p2 → 0 < p2.price ∧ 0 ≤ p2.quantity) ∧
    (∀ a p2, p.add_stock a = .ok p2 → 0 < p2.price ∧ 0 ≤ p2.quantity) ∧
    (∀ a p2, p.remove_stock a = .ok p2 → 0 < p2.price ∧ 0 ≤ p2.quantity) := by
  refine ⟨?_, ?_, ?_, ?_⟩
  · intro n pr q i p2 hmk
    simp only [Product.make, Product.validate] at hmk
    split_ifs at hmk with h1 h2 h3
    all_goals simp only at hmk
    all_goals first
    | exact Except.noConfusion hmk
    | (injection hmk with h4; rw [← h4]; exact ⟨by simpa using lt_of_not_le h2, by simpa using le_of_not_lt h3⟩)
  · intro x p2 hu
    unfold Product.update_price at hu
    split_ifs at hu with h1 h2
    all_goals first
    | exact Except.noConfusion hu
    | (injection hu with h4; rw [← h4]; exact ⟨by simpa using lt_of_not_le h1, by simpa using h.2⟩)
  · intro a p2 hu
    unfold Product.add_stock at hu
    split_ifs at hu with h1
    all_goals first
    | exact Except.noConfusion hu
    | (injection hu with h4; rw [← h4]; refine ⟨by simpa using h.1, ?_⟩; simp only; omega)
  · intro a p2 hu
    unfold Product.remove_stock at hu
    split_ifs at hu with h1 h2
    all_goals first
    | exact Except.noConfusion hu
    | (injection hu with h4; rw [← h4]; refine ⟨by simpa using h.1, ?_⟩; simp only; omega)

/-- Witness for `product_bounds_invariant`: construction validates the
bounds, and a concrete `remove_stock` preserves them. -/
theorem product_bounds_invariant_witness :
    0 < (10 : ℚ) ∧ 0 ≤ (5 : ℤ) ∧
    (0 < ({ id := none, name := "Widget", price := 10, quantity := 2 } : Product).price ∧
      0 ≤ ({ id := none, name := "Widget", price := 10, quantity := 2 } : Product).quantity) := by
  refine ⟨by norm_num, by norm_num, ?_⟩
  exact (product_bounds_invariant { id := none, name := "Widget", price := 10, quantity := 5 }
      ⟨by norm_num, by norm_num⟩).2.2.2 3 _ rfl

/-- After `ProductService.update_product` the product's name is the DTO's
name when one was supplied and the old name otherwise, on every path
(including the paths where a later step raises). -/
theorem update_product_name (p : Product) (dto : ProductUpdateDTO) :
    (ProductService.update_product p dto).1.name = dto.name.getD p.name := by
  unfold ProductService.update_product
  cases hn : dto.name with
  | none =>
    cases hpr : dto.price with
    | none => simp [update_quantity_step_name]
    | some pr =>
      rcases hu : p.update_price pr with e | p2
      · simp [hu]
      · simp [hu, update_quantity_step_name, Product.update_price_name hu]
  | some n =>
    cases hpr : dto.price with
    | none => simp [update_quantity_step_name]
    | some pr =>
      rcases hu : Product.update_price { p with name := n } pr with e | p2
      · simp [hu]
      · have := Product.update_price_name hu
        simp only at this
        simp [hu, update_quantity_step_name, this]

/-- C6: the name invariant (non-empty, at least 3 characters) holds after
successful construction and is preserved by every public operation,
including `ProductService.update_product`: the direct `product.name =
dto.name` assignment there bypasses entity validation but is guarded by the
DTO's pydantic constraint `min_length=3`. -/
theorem product_name_length_invariant (p : Product) (h : 3 ≤ p.name.length) :
    ¬ p.name = "" ∧
    (∀ n pr q i p2, Product.make n pr q i = .ok p2 →
      3 ≤ p2.name.length ∧ ¬ p2.name = "") ∧
    (∀ x p2, p.update_price x = .ok p2 → 3 ≤ p2.name.length) ∧
    (∀ a p2, p.add_stock a = .ok p2 → 3 ≤ p2.name.length) ∧
    (∀ a p2, p.remove_stock a = .ok p2 → 3 ≤ p2.name.length) ∧
    (∀ dto, dto.valid →
      3 ≤ (ProductService.update_product p dto).1.name.length ∧
      ¬ (ProductService.update_product p dto).1.name = "") := by
  have hlen : ∀ s : String, 3 ≤ s.length → ¬ s = "" := by
    intro s hs he
    rw [he] at hs
    simp at hs
  refine ⟨hlen _ h, ?_, ?_, ?_, ?_, ?_⟩
  · intro n pr q i p2 hmk
    simp only [Product.make, Product.validate] at hmk
    split_ifs at hmk with h1 h2 h3
    all_goals simp only at hmk
    all_goals first
    | exact Except.noConfusion hmk
    | (injection hmk with h4
       rw [← h4]
       have h5 : 3 ≤ n.length := by omega
       exact ⟨h5, hlen _ h5⟩)
  · intro x p2 hu
    rw [Product.update_price_name hu]
    exact h
  · intro a p2 hu
    rw [Product.add_stock_name hu]
    exact h
  · intro a p2 hu
    rw [Product.remove_stock_name hu]
    exact h
  · intro dto hv
    rw [update_product_name]
    cases hn : dto.name with
    | none =>
      exact ⟨by simpa using h, hlen _ (by simpa using h)⟩
    | some n =>
      have h5 : 3 ≤ n.length := (hv.1 n (by rw [hn]; rfl)).1
      exact ⟨by simpa using h5, hlen _ (by simpa using h5)⟩

/-- Witness for `product_name_length_invariant`: the invariant transported
through a concrete `update_product` carrying a new 6-character name. -/
theorem product_name_length_invariant_witness :
    3 ≤ ("Widget" : String).length ∧
    ProductUpdateDTO.valid { name := some "Gadget", price := none, quantity := none } ∧
    ¬ (ProductService.update_product
        { id := none, name := "Widget", price := 10, quantity := 5 }
        { name := some "Gadget", price := none, quantity := none }).1.name = "" := by
  refine ⟨by decide, by decide, ?_⟩
  exact ((product_name_length_invariant
      { id := none, name := "Widget", price := 10, quantity := 5 } (by decide)).2.2.2.2.2
      { name := some "Gadget", price := none, quantity := none } (by decide)).2

/-- C9: after any sequence of `add_item` / `remove_item` operations,
`total_amount` is the sum of `price * quantity` over the current items and
`items_count` is the number of current items — both are recomputed from the
items list on every read (they are computed properties, nothing stored). -/
theorem derived_aggregates_fresh (o : Order) (ops : List OrderOp) :
    (o.apply_ops ops).total_amount =
      (((o.apply_ops ops).items.map (fun it => it.price * (it.quantity : ℚ))).sum) ∧
    (o.apply_ops ops).items_count = (o.apply_ops ops).items.length :=
  ⟨rfl, rfl⟩

/-- C10: `Order.add_item` never reads `status`.  For an order in status
`confirmed`, `cancelled` or `delivered`, adding a product whose id is not
yet among the items, with `0 < quantity ≤ product.quantity`, succeeds and
appends the snapshot line item — and yields exactly the items the same call
would produce on the order with status `pending`. -/
theorem add_item_ignores_status (o : Order) (p : Product) (q : ℤ)
    (hs : o.status = "confirmed" ∨ o.status = "cancelled" ∨ o.status = "delivered")
    (hfresh : ∀ it ∈ o.items, ¬ it.product_id = p.id)
    (h0 : 0 < q) (hq : q ≤ p.quantity) :
    o.add_item p q =
      .ok ({ o with items := o.items ++
              [{ product_id := p.id, product_name := p.name,
                 price := p.price, quantity := q }] }, p) ∧
    ({ o with status := "pending" } : Order).add_item p q =
      .ok ({ o with status := "pending",
                    items := o.items ++
                      [{ product_id := p.id, product_name := p.name,
                         price := p.price, quantity := q }] }, p) := by
  have hstock : p.is_in_stock = true := by
    simp only [Product.is_in_stock, decide_eq_true_eq]
    omega
  have hany : o.items.any (fun it => it.product_id = p.id) = false := by
    rw [List.any_eq_false]
    intro it hit
    simpa using hfresh it hit
  constructor
  all_goals
    unfold Order.add_item
    rw [if_neg (by omega), if_neg (by simp [hstock]), if_neg (by omega)]
    simp only [hany]
    rfl

/-- Witness for `add_item_ignores_status`: a confirmed order with one item
accepts a different product. -/
theorem add_item_ignores_status_witness :
    ({ id := some 1, user_id := 7, status := "confirmed",
       items := [⟨some 2, "Gadget", 4, 1⟩] } : Order).add_item
      { id := some 1, name := "Widget", price := 10, quantity := 5 } 2 =
    .ok ({ id := some 1, user_id := 7, status := "confirmed",
           items := [⟨some 2, "Gadget", 4, 1⟩, ⟨some 1, "Widget", 10, 2⟩] },
         { id := some 1, name := "Widget", price := 10, quantity := 5 }) := by
  exact (add_item_ignores_status _ _ 2 (Or.inl rfl) (by decide) (by decide) (by decide)).1

/-- C8: `Order.add_item` never mutates the product it is given — on every
successful run the threaded product comes back unchanged (and every failing
run raises before any mutation) — and the appended `OrderItem` snapshots
the product's name and price at call time: a later successful
`update_price` on the product leaves the stored per-item prices and
subtotals exactly as they were, still showing the old price. -/
theorem add_item_product_frame (o : Order) (p : Product) (q : ℤ) :
    (∀ o2 p2, o.add_item p q = .ok (o2, p2) →
      p2 = p ∧
      o2.items = o.items ++
        [{ product_id := p.id, product_name := p.name,
           price := p.price, quantity := q }]) ∧
    (∀ o2 p2 x p3, o.add_item p q = .ok (o2, p2) → p.update_price x = .ok p3 →
      o2.items.map OrderItem.price = o.items.map OrderItem.price ++ [p.price] ∧
      o2.items.map OrderItem.subtotal =
        o.items.map OrderItem.subtotal ++ [p.price * q]) := by
  have hmain : ∀ o2 p2, o.add_item p q = .ok (o2, p2) →
      p2 = p ∧
      o2.items = o.items ++
        [{ product_id := p.id, product_name := p.name,
           price := p.price, quantity := q }] := by
    intro o2 p2 h
    unfold Order.add_item at h
    split_ifs at h
    all_goals first
    | exact Except.noConfusion h
    | (injection h with h2
       injection h2 with h3 h4
       rw [← h3, ← h4]
       exact ⟨rfl, rfl⟩)
  refine ⟨hmain, ?_⟩
  intro o2 p2 x p3 h hu
  obtain ⟨hp2, hitems⟩ := hmain o2 p2 h
  rw [hitems]
  constructor
  · rw [List.map_append]
    rfl
  · rw [List.map_append]
    rfl

/-- Witness for `add_item_product_frame`: a concrete successful addition
followed by a concrete successful price update; the order still records the
snapshot price 10. -/
theorem add_item_product_frame_witness :
    ({ id := some 1, user_id := 7, status := "pending",
       items := [] } : Order).add_item
      { id := some 1, name := "Widget", price := 10, quantity := 5 } 2 =
      .ok ({ id := some 1, user_id := 7, status := "pending",
             items := [⟨some 1, "Widget", 10, 2⟩] },
           { id := some 1, name := "Widget", price := 10, quantity := 5 }) ∧
    ({ id := some 1, name := "Widget", price := 10, quantity := 5 } : Product).update_price 12 =
      .ok { id := some 1, name := "Widget", price := 12, quantity := 5 } ∧
    [(⟨some 1, "Widget", 10, 2⟩ : OrderItem)].map OrderItem.price = [] ++ [(10 : ℚ)] := by
  have hup : ({ id := some 1, name := "Widget", price := 10, quantity := 5 } : Product).update_price 12 =
      .ok { id := some 1, name := "Widget", price := 12, quantity := 5 } := by
    unfold Product.update_price
    rw [if_neg (by norm_num), if_neg (by norm_num)]
  refine ⟨rfl, hup, ?_⟩
  have h := (add_item_product_frame
      { id := some 1, user_id := 7, status := "pending", items := [] }
      { id := some 1, name := "Widget", price := 10, quantity := 5 } 2).2
      { id := some 1, user_id := 7, status := "pending",
        items := [⟨some 1, "Widget", 10, 2⟩] }
      { id := some 1, name := "Widget", price := 10, quantity := 5 }
      12 { id := some 1, name := "Widget", price := 12, quantity := 5 }
      rfl hup
  exact h.1

/-- C1 (counter-evidence): the claimed merge of a duplicate product never
happens.  The source's merge branch executes `item.quantity += quantity`
against the setter-less property `OrderItem.quantity`, so it raises
`AttributeError` instead of summing the quantities: a pending order already
holding product 1 (quantity 2) rejects a further valid addition of 3 units
of product 1 — the [2 + 3 = 5] outcome the claim describes is unreachable. -/
theorem add_item_merge_attribute_error :
    ({ id := some 1, user_id := 7, status := "pending",
       items := [⟨some 1, "Widget", 10, 2⟩] } : Order).add_item
      { id := some 1, name := "Widget", price := 10, quantity := 10 } 3 =
    .error "AttributeError: OrderItem quantity property has no setter" := rfl

/-- C2 (counter-evidence): a business-rule rejection of `cancel_order` does
not leave stock untouched.  The service runs the stock-restoration loop
*before* `Order.cancel` can reject the transition: with product 1 at
quantity 5 and an already-cancelled order holding 2 units of product 1, the
call raises the `ValueError` from `Order.cancel` yet the product table comes
back with product 1 at quantity 7. -/
theorem cancel_order_mutates_stock_then_raises :
    OrderService.cancel_order
      [(1, { id := some 1, name := "Widget", price := 10, quantity := 5 })]
      [(1, { id := some 1, user_id := 7, status := "cancelled",
             items := [⟨some 1, "Widget", 10, 2⟩] })] 1 =
    ([(1, { id := some 1, name := "Widget", price := 10, quantity := 7 })],
     [(1, { id := some 1, user_id := 7, status := "cancelled",
            items := [⟨some 1, "Widget", 10, 2⟩] })],
     .error "ValueError: cannot cancel order in a terminal status") := rfl
